import Mathlib

/-!
# hdf5-fuse: the four filesystem callbacks of `main.c`

A shallow embedding of `hdf5_fuse_filesize`, `hdf5_fuse_getattr`,
`hdf5_fuse_readdir`, `hdf5_fuse_open` and `hdf5_fuse_read`.

Conventions of the embedding.

* The container behind the global `root_group` is a map from paths to
  objects; the HDF5 calls used by `main.c` are modelled by their documented
  behaviour on that map (negative return on failure, `H5Tget_size` returns 0
  on failure).
* Identifiers handed out by the library (`hid_t`) and live `malloc` blocks are
  kept in explicit tables, so that each callback is a function from the state
  before the call to a result and the state after it.
* C integers follow the LP64 data model of Linux: `size_t`, `hsize_t` and
  `nlink_t` are 64-bit unsigned, `off_t` and `hssize_t` are 64-bit signed,
  `int` is 32-bit signed.  Every arithmetic operation and conversion of the
  source is reduced explicitly.
* `malloc` serves a request up to a limit that belongs to the machine and
  returns the null pointer above it; `hdf5_fuse_read` never tests the pointer,
  and a copy of at least one byte out of the null pointer has no result (the
  process is killed).
-/

namespace Hdf5Fuse

/-! ## Constants of the system headers -/

/-- The errno value `ENOENT` of Linux. -/
def ENOENT : Int := 2

/-- The errno value `EACCES` of Linux. -/
def EACCES : Int := 13

/-- Access mode `O_RDONLY` of `fcntl.h`. -/
def O_RDONLY : Int := 0

/-- Access mode `O_WRONLY` of `fcntl.h`. -/
def O_WRONLY : Int := 1

/-- Access mode `O_RDWR` of `fcntl.h`. -/
def O_RDWR : Int := 2

/-- File type mask `S_IFMT` of `sys/stat.h`. -/
def S_IFMT : Nat := 0o170000

/-- File type `S_IFDIR` (directory). -/
def S_IFDIR : Nat := 0o040000

/-- File type `S_IFREG` (regular file). -/
def S_IFREG : Nat := 0o100000

/-- File type `S_IFCHR` (character device). -/
def S_IFCHR : Nat := 0o020000

/-! ## Machine integers -/

/-- Conversion of an integer value to a 64-bit unsigned type (`size_t`). -/
def to_size_t (x : Int) : Nat := (x % (2 : Int) ^ 64).toNat

/-- Conversion of an unsigned value to the 64-bit signed `off_t`. -/
def to_off_t (x : Nat) : Int :=
  if x % 2 ^ 64 < 2 ^ 63 then ((x % 2 ^ 64 : Nat) : Int) else ((x % 2 ^ 64 : Nat) : Int) - 2 ^ 64

/-- Conversion of an unsigned value to the 64-bit unsigned `nlink_t`. -/
def to_nlink_t (x : Nat) : Nat := x % 2 ^ 64

/-- Conversion of a `size_t` value to the 32-bit signed `int`. -/
def to_int (x : Nat) : Int :=
  if x % 2 ^ 32 < 2 ^ 31 then ((x % 2 ^ 32 : Nat) : Int) else ((x % 2 ^ 32 : Nat) : Int) - 2 ^ 32

/-! ## The container -/

/-- One byte of dataset content. -/
abbrev Byte := Fin 256

/-- A dataset: the size of its element type (`H5Tget_size`), the number of
elements of its dataspace (`H5Sget_simple_extent_npoints`) and the raw bytes
`H5Dread` delivers when the memory type is the type of the dataset, byte `i`
being `data i` for `i < num_elems * type_size`. -/
structure Dataset where
  type_size : Nat
  num_elems : Nat
  data : Nat → Byte

/-- The decoded content of a dataset: the sequence of its
`num_elems * type_size` bytes. -/
def Dataset.content (d : Dataset) : List Byte :=
  (List.range (d.num_elems * d.type_size)).map d.data

/-- A group: the names of its links in the order of
`H5Lget_name_by_idx (H5_INDEX_NAME, H5_ITER_INC)`, every character standing
for one `char` of the C string.  The number of links is an `hsize_t` that
counts links stored in a file with 64-bit addresses; it stays below `2^63`. -/
structure Group where
  names : List String
  bound : names.length < 2 ^ 63

/-- An object of the container, as classified by `H5Oget_info_by_name`. -/
inductive Object where
  | group (g : Group)
  | dataset (d : Dataset)
  | other

/-- What an open identifier of the library refers to. -/
inductive Handle where
  | dataset (path : String)
  | datatype (size : Nat)
  | dataspace (npoints : Nat)
  deriving DecidableEq, Repr

/-- The allocator of the machine: `limit` is the largest request that `malloc`
serves.  It is below `2^63`, since `malloc` fails on every request above
`PTRDIFF_MAX`, and at least `INT_MAX`, the largest count that one call of
`hdf5_fuse_read` can return. -/
structure Allocator where
  limit : Nat
  lo : 2 ^ 31 - 1 ≤ limit
  hi : limit < 2 ^ 63

/-- State of the process seen by the callbacks: the container opened
read-only by `main` (looked up through `root_group`), the table of open
library identifiers, the table of live `malloc` blocks with their sizes, the
next fresh identifier and block address, and the allocator. -/
structure Lib where
  file : String → Option Object
  handles : List (Nat × Handle)
  heap : List (Nat × Nat)
  next_id : Nat
  next_block : Nat
  alloc : Allocator

/-- First entry of a table under a key. -/
def find {α β : Type} [DecidableEq α] (k : α) : List (α × β) → Option β
  | [] => none
  | e :: es => if e.1 = k then some e.2 else find k es

/-- Removal of the first entry of a table under a key. -/
def release {α β : Type} [DecidableEq α] (k : α) : List (α × β) → List (α × β)
  | [] => []
  | e :: es => if e.1 = k then es else e :: release k es

/-- Registration of a new identifier; identifiers are never negative. -/
def Lib.register (s : Lib) (h : Handle) : Int × Lib :=
  ((s.next_id : Int), { s with handles := (s.next_id, h) :: s.handles, next_id := s.next_id + 1 })

/-- What a `hid_t` value refers to; a negative value is no identifier. -/
def Lib.lookup (s : Lib) (id : Int) : Option Handle :=
  if id < 0 then none else find id.toNat s.handles

/-! ## The library calls used by `main.c` -/

/-- The call `H5Dopen(root_group, path, H5P_DEFAULT)`: a new dataset
identifier, or a negative value when `path` is not a dataset. -/
def H5Dopen (s : Lib) (path : String) : Int × Lib :=
  match s.file path with
  | some (Object.dataset _) => s.register (Handle.dataset path)
  | _ => (-1, s)

/-- The dataset an identifier refers to, if it is an open dataset identifier. -/
def Lib.dataset_of (s : Lib) (id : Int) : Option Dataset :=
  match s.lookup id with
  | some (Handle.dataset path) =>
    match s.file path with
    | some (Object.dataset d) => some d
    | _ => none
  | _ => none

/-- The call `H5Dget_type(dataset)`: a new datatype identifier, or a negative
value when `dataset` is not an open dataset identifier. -/
def H5Dget_type (s : Lib) (dataset : Int) : Int × Lib :=
  match s.dataset_of dataset with
  | some d => s.register (Handle.datatype d.type_size)
  | none => (-1, s)

/-- The call `H5Dget_space(dataset)`: a new dataspace identifier, or a negative
value when `dataset` is not an open dataset identifier. -/
def H5Dget_space (s : Lib) (dataset : Int) : Int × Lib :=
  match s.dataset_of dataset with
  | some d => s.register (Handle.dataspace d.num_elems)
  | none => (-1, s)

/-- The call `H5Tget_size(datatype)`: the size of the type, 0 on failure. -/
def H5Tget_size (s : Lib) (datatype : Int) : Nat :=
  match s.lookup datatype with
  | some (Handle.datatype size) => size % 2 ^ 64
  | _ => 0

/-- The call `H5Sget_simple_extent_npoints(dataspace)`: the number of
elements, negative on failure. -/
def H5Sget_simple_extent_npoints (s : Lib) (dataspace : Int) : Int :=
  match s.lookup dataspace with
  | some (Handle.dataspace npoints) => (npoints : Int)
  | _ => -1

/-- The call `H5Sclose(dataspace)`. -/
def H5Sclose (s : Lib) (dataspace : Int) : Lib :=
  match s.lookup dataspace with
  | some (Handle.dataspace _) => { s with handles := release dataspace.toNat s.handles }
  | _ => s

/-- The call `H5Dclose(dataset)`. -/
def H5Dclose (s : Lib) (dataset : Int) : Lib :=
  match s.lookup dataset with
  | some (Handle.dataset _) => { s with handles := release dataset.toNat s.handles }
  | _ => s

/-- Kind of object reported in `H5O_info_t.type`. -/
inductive H5O_type where
  | H5O_TYPE_GROUP
  | H5O_TYPE_DATASET
  | H5O_TYPE_OTHER
  deriving DecidableEq, Repr

/-- The call `H5Oget_info_by_name(root_group, path, &obj_info, ..)`: `none`
stands for a negative return value, otherwise the type of the object. -/
def H5Oget_info_by_name (s : Lib) (path : String) : Option H5O_type :=
  match s.file path with
  | none => none
  | some (Object.group _) => some H5O_type.H5O_TYPE_GROUP
  | some (Object.dataset _) => some H5O_type.H5O_TYPE_DATASET
  | some Object.other => some H5O_type.H5O_TYPE_OTHER

/-- The call `H5Gget_info_by_name(root_group, path, &group_info, ..)`: `none`
stands for a negative return value, otherwise the field `nlinks`. -/
def H5Gget_info_by_name (s : Lib) (path : String) : Option Nat :=
  match s.file path with
  | some (Object.group g) => some g.names.length
  | _ => none

/-- The call `H5Lget_name_by_idx(root_group, path, H5_INDEX_NAME, H5_ITER_INC,
i, name, 128, ..)`: the content of the 128-byte array `name` afterwards, which
is the name of link `i` cut to 127 characters before the terminating NUL. -/
def H5Lget_name_by_idx (s : Lib) (path : String) (i : Nat) : String :=
  match s.file path with
  | some (Object.group g) => String.mk ((g.names.getD i "").data.take 127)
  | _ => ""

/-- The call `malloc(size)`: the address of a new live block, or `none`, the
null pointer, when the request exceeds what the allocator serves. -/
def malloc (s : Lib) (size : Nat) : Option Nat × Lib :=
  if size ≤ s.alloc.limit then
    (some s.next_block,
      { s with heap := (s.next_block, size) :: s.heap, next_block := s.next_block + 1 })
  else (none, s)

/-- The call `free(ptr)`; nothing happens on the null pointer. -/
def free (s : Lib) (ptr : Option Nat) : Lib :=
  match ptr with
  | some p => { s with heap := release p s.heap }
  | none => s

/-- Content of the block at `hdf5_buf` after the call `H5Dread(dataset,
datatype, H5S_ALL, H5S_ALL, H5P_DEFAULT, hdf5_buf)`: the raw bytes of the
dataset, or `none` when the call fails (an identifier is not open, or
`hdf5_buf` is the null pointer) and leaves the block as `malloc` returned
it. -/
def H5Dread (s : Lib) (dataset datatype : Int) (hdf5_buf : Option Nat) : Option (Nat → Byte) :=
  match s.dataset_of dataset, s.lookup datatype, hdf5_buf with
  | some d, some (Handle.datatype _), some _ => some d.data
  | _, _, _ => none

/-- Byte found at index `j` from the start of a block of `size` bytes with
the given content; `none` is an indeterminate byte: the block was never
written, or the index lies outside of it. -/
def load (size : Nat) (content : Option (Nat → Byte)) (j : Int) : Option Byte :=
  if 0 ≤ j ∧ j < (size : Int) then content.map (fun c => c j.toNat) else none

/-- The call `memcpy(buf, src, n)`: the `n` bytes stored at the start of `buf`,
`src i` being the byte at `src + i`. -/
def memcpy (src : Nat → Option Byte) (n : Nat) : List (Option Byte) :=
  (List.range n).map src

/-! ## The callbacks of `main.c` -/

/-- The function `hdf5_fuse_filesize` (lines 16-29): the returned `size_t`
and the state after the call. -/
def hdf5_fuse_filesize (s : Lib) (path : String) : Nat × Lib :=
  let r1 := H5Dopen s path
  let dataset := r1.1
  if dataset < 0 then (0, r1.2)
  else
    let r2 := H5Dget_type r1.2 dataset
    let datatype := r2.1
    let r3 := H5Dget_space r2.2 dataset
    let dataspace := r3.1
    let type_size := H5Tget_size r3.2 datatype
    let num_elems := to_size_t (H5Sget_simple_extent_npoints r3.2 dataspace)
    let s4 := H5Sclose r3.2 dataspace
    let s5 := H5Dclose s4 dataset
    ((num_elems * type_size) % 2 ^ 64, s5)

/-- The fields of `struct stat` that `hdf5_fuse_getattr` writes; every other
field keeps the 0 of the initial `memset`. -/
structure Stat where
  st_mode : Nat
  st_nlink : Nat
  st_size : Int
  deriving DecidableEq, Repr

/-- The function `hdf5_fuse_getattr` (lines 31-54): the returned `int`, the
record left in `stbuf` and the state after the call. -/
def hdf5_fuse_getattr (s : Lib) (path : String) : Int × Stat × Lib :=
  let stbuf : Stat := { st_mode := 0, st_nlink := 0, st_size := 0 }
  match H5Oget_info_by_name s path with
  | none => (-ENOENT, stbuf, s)
  | some type =>
    if type = H5O_type.H5O_TYPE_GROUP then
      -- the return value of `H5Gget_info_by_name` is not tested; on a group it succeeds
      let nlinks := (H5Gget_info_by_name s path).getD 0
      (0, { st_mode := S_IFDIR ||| 0o555,
            st_nlink := to_nlink_t ((2 + nlinks) % 2 ^ 64),
            st_size := to_off_t nlinks }, s)
    else if type = H5O_type.H5O_TYPE_DATASET then
      let r := hdf5_fuse_filesize s path
      (0, { st_mode := S_IFREG ||| 0o444, st_nlink := 0, st_size := to_off_t r.1 }, r.2)
    else
      (0, { st_mode := S_IFCHR ||| 0o000, st_nlink := 0, st_size := 0 }, s)

/-- The function `hdf5_fuse_readdir` (lines 56-77): the returned `int` and the
names passed to `filler`, in call order.  The callback opens no identifier. -/
def hdf5_fuse_readdir (s : Lib) (path : String) : Int × List String :=
  match H5Gget_info_by_name s path with
  | none => (-ENOENT, [])
  | some nlinks =>
    let buf := [".", ".."]
    let buf := (List.range nlinks).foldl (fun b i => b ++ [H5Lget_name_by_idx s path i]) buf
    (0, buf)

/-- The function `hdf5_fuse_open` (lines 79-89) on the field `fi->flags`: the
returned `int`.  The callback opens no identifier. -/
def hdf5_fuse_open (s : Lib) (path : String) (flags : Int) : Int :=
  if Int.land flags 3 ≠ O_RDONLY then -EACCES
  else
    match H5Oget_info_by_name s path with
    | none => -ENOENT
    | some _ => 0

/-- What `hdf5_fuse_read` hands back: the returned `int` and the bytes stored
at the start of the caller's `buf`. -/
structure ReadResult where
  ret : Int
  buf : List (Option Byte)
  deriving DecidableEq

/-- The value of `copy_size` on line 101: `buf_size - offset` is evaluated in
`size_t`, the `off_t` operand being converted to unsigned. -/
def copy_size (buf_size size : Nat) (offset : Int) : Nat :=
  if to_size_t ((buf_size : Int) - offset) < size then to_size_t ((buf_size : Int) - offset) else size

/-- The function `hdf5_fuse_read` (lines 91-106) for a request of `size` bytes
at `offset`: the result and the state after the call.  The pointer that
`malloc` returns is not tested: when it is null and `copy_size` is not 0,
`memcpy` reads from the null pointer plus `offset`, the call does not return
and the outcome is `none`. -/
def hdf5_fuse_read (s : Lib) (path : String) (size : Nat) (offset : Int) :
    Option (ReadResult × Lib) :=
  let r1 := H5Dopen s path
  let dataset := r1.1
  let r2 := H5Dget_type r1.2 dataset
  let datatype := r2.1
  let r3 := hdf5_fuse_filesize r2.2 path
  let buf_size := r3.1
  let r4 := malloc r3.2 buf_size
  let hdf5_buf := r4.1
  let content := H5Dread r4.2 dataset datatype hdf5_buf
  let n := copy_size buf_size size offset
  if hdf5_buf = none ∧ 0 < n then none
  else
    let buf := memcpy (fun i => load buf_size content (offset + (i : Int))) n
    let s5 := free r4.2 hdf5_buf
    let s6 := H5Dclose s5 dataset
    some ({ ret := to_int n, buf := buf }, s6)

/-! ## Sample containers -/

/-- Ten elements of four bytes whose byte `i` is `i mod 256`. -/
def data10x4 : Dataset := { type_size := 4, num_elems := 10, data := fun i => Fin.ofNat i }

/-- A root group holding the dataset `data` and the group `g`. -/
def groupRoot : Group := { names := ["data", "g"], bound := by decide }

/-- A group with three children. -/
def groupG : Group := { names := ["a", "b", "c"], bound := by decide }

/-- The container of the scenarios: `/data` has 10 elements of 4 bytes, `/g`
has 3 children. -/
def sampleFile : String → Option Object := fun path =>
  if path = "/" then some (Object.group groupRoot)
  else if path = "/data" then some (Object.dataset data10x4)
  else if path = "/g" then some (Object.group groupG)
  else none

/-- An allocator that serves requests up to `2^40` bytes. -/
def machine : Allocator := { limit := 2 ^ 40, lo := by decide, hi := by decide }

/-- A state with no open identifier and no live block. -/
def sampleLib : Lib :=
  { file := sampleFile, handles := [], heap := [], next_id := 0, next_block := 0,
    alloc := machine }

/-- A dataset of `2^31` one-byte elements (2 GiB). -/
def data2G : Dataset := { type_size := 1, num_elems := 2 ^ 31, data := fun _ => 0 }

/-- A container whose only object is the 2 GiB dataset `/big`. -/
def lib2G : Lib :=
  { file := fun path => if path = "/big" then some (Object.dataset data2G) else none,
    handles := [], heap := [], next_id := 0, next_block := 0, alloc := machine }

/-- A dataset declared with `2^62` elements of four bytes: `2^64` bytes. -/
def dataWide : Dataset := { type_size := 4, num_elems := 2 ^ 62, data := fun _ => 0 }

/-- A container whose only object is the dataset `/wide`. -/
def libWide : Lib :=
  { file := fun path => if path = "/wide" then some (Object.dataset dataWide) else none,
    handles := [], heap := [], next_id := 0, next_block := 0, alloc := machine }

/-- A dataset declared with `2^62` elements of two bytes: `2^63` bytes. -/
def dataHalf : Dataset := { type_size := 2, num_elems := 2 ^ 62, data := fun _ => 0 }

/-- A container whose only object is the dataset `/half`. -/
def libHalf : Lib :=
  { file := fun path => if path = "/half" then some (Object.dataset dataHalf) else none,
    handles := [], heap := [], next_id := 0, next_block := 0, alloc := machine }

/-- A link name of 200 characters. -/
def longName : String := String.mk (List.replicate 200 'a')

/-- A group whose only child has a name of 200 characters. -/
def groupLong : Group := { names := [longName], bound := by decide }

/-- A container whose root group is `groupLong`, the child being a dataset. -/
def libLong : Lib :=
  { file := fun path =>
      if path = "/" then some (Object.group groupLong)
      else if path = "/" ++ longName then some (Object.dataset data10x4)
      else none,
    handles := [], heap := [], next_id := 0, next_block := 0, alloc := machine }

/-! ## Machine integers and tables: basic facts -/

/-- A non-negative value converts to `size_t` by reduction modulo `2^64`. -/
theorem to_size_t_natCast (n : Nat) : to_size_t (n : Int) = n % 2 ^ 64 := by
  unfold to_size_t
  have h : ((n : Int) % (2 : Int) ^ 64) = ((n % 2 ^ 64 : Nat) : Int) := by
    push_cast; rfl
  rw [h, Int.toNat_natCast]

/-- Lookup of the key at the head of a table. -/
theorem find_cons_self {β : Type} (k : Nat) (v : β) (l : List (Nat × β)) :
    find k ((k, v) :: l) = some v := by
  simp [find]

/-- Lookup skips a head entry under another key. -/
theorem find_cons_ne {β : Type} (k k1 : Nat) (v : β) (l : List (Nat × β)) (h : k1 ≠ k) :
    find k ((k1, v) :: l) = find k l := by
  simp [find, h]

/-- Removal of the key at the head of a table. -/
theorem release_cons_self {β : Type} (k : Nat) (v : β) (l : List (Nat × β)) :
    release k ((k, v) :: l) = l := by
  simp [release]

/-- Removal skips a head entry under another key. -/
theorem release_cons_ne {β : Type} (k k1 : Nat) (v : β) (l : List (Nat × β)) (h : k1 ≠ k) :
    release k ((k1, v) :: l) = (k1, v) :: release k l := by
  simp [release, h]

/-- A non-negative `hid_t` is looked up in the table of identifiers. -/
theorem lookup_natCast (s : Lib) (n : Nat) : s.lookup (n : Int) = find n s.handles := by
  have hnn : ¬ ((n : Int) < 0) := by omega
  simp only [Lib.lookup, hnn, if_false, Int.toNat_natCast]

/-- The value -1 is no identifier. -/
theorem lookup_neg_one (s : Lib) : s.lookup (-1) = none := by
  simp [Lib.lookup]

/-- On a dataset, `hdf5_fuse_filesize` returns the product of the element
count and the type size reduced to `size_t`; the dataset and dataspace
identifiers it opened are closed, the datatype identifier is still open. -/
theorem filesize_dataset (s : Lib) (path : String) (d : Dataset)
    (h : s.file path = some (Object.dataset d)) :
    hdf5_fuse_filesize s path =
      ((d.num_elems * d.type_size) % 2 ^ 64,
       { s with handles := (s.next_id + 1, Handle.datatype d.type_size) :: s.handles,
                next_id := s.next_id + 3 }) := by
  obtain ⟨file, handles, heap, n, b, a⟩ := s
  have h : file path = some (Object.dataset d) := h
  have hnn : ¬ ((n : Int) < 0) := by omega
  have n10 : n + 1 ≠ n := by omega
  have n20 : n + 2 ≠ n := by omega
  have n21 : n + 2 ≠ n + 1 := by omega
  simp only [hdf5_fuse_filesize, H5Dopen, h, Lib.register, hnn, if_false, H5Dget_type,
    H5Dget_space, Lib.dataset_of, lookup_natCast, find_cons_self, find_cons_ne _ _ _ _ n10,
    find_cons_ne _ _ _ _ n20, find_cons_ne _ _ _ _ n21, H5Tget_size,
    H5Sget_simple_extent_npoints, H5Sclose, H5Dclose, Int.toNat_natCast, release_cons_self,
    release_cons_ne _ _ _ _ n10, to_size_t_natCast]
  simp [Nat.mul_mod]

/-- The call `H5Dopen` fails on a path that is not a dataset. -/
theorem H5Dopen_not_dataset (s : Lib) (path : String)
    (h : ∀ d, s.file path ≠ some (Object.dataset d)) : H5Dopen s path = (-1, s) := by
  unfold H5Dopen
  split
  · next d hd => exact absurd hd (h d)
  · rfl

/-- On a path that is not a dataset, `hdf5_fuse_filesize` returns 0 and
opens nothing. -/
theorem filesize_not_dataset (s : Lib) (path : String)
    (h : ∀ d, s.file path ≠ some (Object.dataset d)) :
    hdf5_fuse_filesize s path = (0, s) := by
  simp [hdf5_fuse_filesize, H5Dopen_not_dataset s path h]

/-- On a dataset whose size `malloc` serves, `hdf5_fuse_read` returns
`copy_size` converted to `int` and copies `copy_size` bytes starting at
`offset` of the transient buffer, which holds the raw bytes of the dataset;
the dataset identifier is closed and the buffer freed, the two datatype
identifiers are still open. -/
theorem read_dataset (s : Lib) (path : String) (d : Dataset) (size : Nat) (offset : Int)
    (h : s.file path = some (Object.dataset d))
    (hmem : (d.num_elems * d.type_size) % 2 ^ 64 ≤ s.alloc.limit) :
    hdf5_fuse_read s path size offset =
      some ({ ret := to_int (copy_size ((d.num_elems * d.type_size) % 2 ^ 64) size offset),
              buf := memcpy (fun i => load ((d.num_elems * d.type_size) % 2 ^ 64) (some d.data)
                       (offset + (i : Int)))
                       (copy_size ((d.num_elems * d.type_size) % 2 ^ 64) size offset) },
            { s with handles := (s.next_id + 3, Handle.datatype d.type_size) ::
                       (s.next_id + 1, Handle.datatype d.type_size) :: s.handles,
                     next_id := s.next_id + 5,
                     next_block := s.next_block + 1 }) := by
  obtain ⟨file, handles, heap, n, b, a⟩ := s
  have h : file path = some (Object.dataset d) := h
  have hmem : (d.num_elems * d.type_size) % 2 ^ 64 ≤ a.limit := hmem
  have n10 : n + 1 ≠ n := by omega
  have n30 : n + 2 + 1 ≠ n := by omega
  have n31 : n + 2 + 1 ≠ n + 1 := by omega
  have o3 := filesize_dataset
    ⟨file, (n + 1, Handle.datatype d.type_size) :: (n, Handle.dataset path) :: handles, heap,
      n + 2, b, a⟩
    path d h
  simp only [hdf5_fuse_read, H5Dopen, h, Lib.register, H5Dget_type,
    Lib.dataset_of, lookup_natCast, find_cons_self, o3, malloc, hmem, if_true, free, H5Dread,
    H5Dclose, find_cons_ne _ _ _ _ n10, find_cons_ne _ _ _ _ n30, find_cons_ne _ _ _ _ n31,
    Int.toNat_natCast, release_cons_self, release_cons_ne _ _ _ _ n10,
    release_cons_ne _ _ _ _ n30, false_and, if_false, reduceCtorEq]

/-- On a dataset whose size `malloc` does not serve, `hdf5_fuse_read` has no
result as soon as `copy_size` is not 0: `memcpy` reads from the null pointer. -/
theorem read_dataset_null (s : Lib) (path : String) (d : Dataset) (size : Nat) (offset : Int)
    (h : s.file path = some (Object.dataset d))
    (hmem : s.alloc.limit < (d.num_elems * d.type_size) % 2 ^ 64)
    (hn : 0 < copy_size ((d.num_elems * d.type_size) % 2 ^ 64) size offset) :
    hdf5_fuse_read s path size offset = none := by
  obtain ⟨file, handles, heap, n, b, a⟩ := s
  have h : file path = some (Object.dataset d) := h
  have hmem : ¬ (d.num_elems * d.type_size) % 2 ^ 64 ≤ a.limit := by
    have : a.limit < (d.num_elems * d.type_size) % 2 ^ 64 := hmem
    omega
  have o3 := filesize_dataset
    ⟨file, (n + 1, Handle.datatype d.type_size) :: (n, Handle.dataset path) :: handles, heap,
      n + 2, b, a⟩
    path d h
  simp only [hdf5_fuse_read, H5Dopen, h, Lib.register, H5Dget_type,
    Lib.dataset_of, lookup_natCast, find_cons_self, o3, malloc, hmem, if_false, hn, and_self,
    if_true]

/-- On a path that is not a dataset, `hdf5_fuse_read` runs to its end with a
transient buffer of 0 bytes that `H5Dread` never writes. -/
theorem read_not_dataset (s : Lib) (path : String) (size : Nat) (offset : Int)
    (h : ∀ d, s.file path ≠ some (Object.dataset d)) :
    hdf5_fuse_read s path size offset =
      some ({ ret := to_int (copy_size 0 size offset),
              buf := memcpy (fun i => load 0 none (offset + (i : Int)))
                       (copy_size 0 size offset) },
            { s with next_block := s.next_block + 1 }) := by
  have o2 : H5Dget_type s (-1) = (-1, s) := by
    simp [H5Dget_type, Lib.dataset_of, lookup_neg_one]
  have hz : 0 ≤ s.alloc.limit := Nat.zero_le _
  simp only [hdf5_fuse_read, H5Dopen_not_dataset s path h, o2, filesize_not_dataset s path h,
    malloc, hz, if_true, free, H5Dread, H5Dclose, Lib.dataset_of, lookup_neg_one,
    release_cons_self, false_and, if_false, reduceCtorEq]

/-- Values up to `INT_MAX` are unchanged by the conversion to `int`. -/
theorem to_int_small (n : Nat) (h : n < 2 ^ 31) : to_int n = (n : Int) := by
  unfold to_int
  have h1 : n % 2 ^ 32 = n := Nat.mod_eq_of_lt (by omega)
  rw [h1, if_pos h]

/-- Values below `2^63` are unchanged by the conversion to `off_t`. -/
theorem to_off_t_small (n : Nat) (h : n < 2 ^ 63) : to_off_t n = (n : Int) := by
  unfold to_off_t
  have h1 : n % 2 ^ 64 = n := Nat.mod_eq_of_lt (by omega)
  rw [h1, if_pos h]

/-- Values in the range of `size_t` are unchanged by the conversion. -/
theorem to_size_t_of_range (x : Int) (h0 : 0 ≤ x) (h1 : x < 2 ^ 64) : to_size_t x = x.toNat := by
  unfold to_size_t
  rw [Int.emod_eq_of_lt h0 h1]

/-- A copy whose source range lies inside the transient buffer delivers the
bytes of the dataset at that range. -/
theorem memcpy_in_bounds (B : Nat) (data : Nat → Byte) (offset : Int) (n : Nat)
    (h0 : 0 ≤ offset) (h1 : offset + (n : Int) ≤ (B : Int)) :
    memcpy (fun i => load B (some data) (offset + (i : Int))) n =
      (List.range n).map (fun i => some (data (offset.toNat + i))) := by
  unfold memcpy
  apply List.map_congr_left
  intro i hi
  have hi : i < n := List.mem_range.mp hi
  have hb : 0 ≤ offset + (i : Int) ∧ offset + (i : Int) < (B : Int) := by omega
  have ht : (offset + (i : Int)).toNat = offset.toNat + i := by omega
  simp only [load, hb, and_self, if_true, Option.map, ht]

/-- A slice of a tabulated sequence is the tabulation of the shifted function. -/
theorem range_map_slice {α : Type} (f : Nat → α) (S o n : Nat) (h : o + n ≤ S) :
    (((List.range S).map f).drop o).take n = (List.range n).map (fun i => f (o + i)) := by
  apply List.ext_getElem
  · simp; omega
  · intro i h1 h2
    simp

/-! ## The callbacks on a dataset, on a group and on any other path -/

/-- The content of a dataset has `num_elems * type_size` bytes. -/
theorem content_length (d : Dataset) : d.content.length = d.num_elems * d.type_size := by
  simp [Dataset.content]

/-- The result of `hdf5_fuse_getattr` on a dataset. -/
theorem getattr_dataset (s : Lib) (path : String) (d : Dataset)
    (h : s.file path = some (Object.dataset d)) :
    hdf5_fuse_getattr s path =
      (0, { st_mode := S_IFREG ||| 0o444, st_nlink := 0,
            st_size := to_off_t ((d.num_elems * d.type_size) % 2 ^ 64) },
       { s with handles := (s.next_id + 1, Handle.datatype d.type_size) :: s.handles,
                next_id := s.next_id + 3 }) := by
  simp [hdf5_fuse_getattr, H5Oget_info_by_name, h, filesize_dataset s path d h]

/-- The result of `hdf5_fuse_getattr` on a group. -/
theorem getattr_group (s : Lib) (path : String) (g : Group)
    (h : s.file path = some (Object.group g)) :
    hdf5_fuse_getattr s path =
      (0, { st_mode := S_IFDIR ||| 0o555, st_nlink := 2 + g.names.length,
            st_size := (g.names.length : Int) }, s) := by
  have hb := g.bound
  have h1 : to_nlink_t ((2 + g.names.length) % 2 ^ 64) = 2 + g.names.length := by
    unfold to_nlink_t
    omega
  simp only [hdf5_fuse_getattr, H5Oget_info_by_name, H5Gget_info_by_name, h, h1,
    to_off_t_small _ hb, if_true, Option.getD_some]

/-- The loop that calls `filler` once per index appends the names in index order. -/
theorem foldl_append_singleton {α : Type} (f : Nat → α) (l : List Nat) (init : List α) :
    l.foldl (fun b i => b ++ [f i]) init = init ++ l.map f := by
  induction l generalizing init with
  | nil => simp
  | cons a t ih => simp [ih]

/-- Visiting the indices `0 .. n-1` of a list of `n` names visits the names in order. -/
theorem range_map_getD (names : List String) (f : String → String) :
    (List.range names.length).map (fun i => f (names.getD i "")) = names.map f := by
  apply List.ext_getElem
  · simp
  · intro i h1 h2
    have hi : i < names.length := by simpa using h1
    simp [List.getElem?_eq_getElem hi]

/-- The result of `hdf5_fuse_readdir` on a group. -/
theorem readdir_group (s : Lib) (path : String) (g : Group)
    (h : s.file path = some (Object.group g)) :
    hdf5_fuse_readdir s path =
      (0, "." :: ".." :: g.names.map (fun name => String.mk (name.data.take 127))) := by
  have hn : ∀ i, H5Lget_name_by_idx s path i = String.mk ((g.names.getD i "").data.take 127) := by
    intro i
    simp [H5Lget_name_by_idx, h]
  simp only [hdf5_fuse_readdir, H5Gget_info_by_name, h, hn, foldl_append_singleton]
  rw [range_map_getD g.names (fun name => String.mk (name.data.take 127))]
  rfl

/-! ## Reads inside a dataset -/

/-- C2, as stated, fails.  The 2 GiB dataset `/big` has total byte size
`S = 2^31`; offset 0 and requested length `2^31 + 1` satisfy
`0 ≤ offset ≤ S` and `offset + length > S`, yet the `int` returned is
`-2^31`, not `S - offset = 2^31`.  The dataset `/half` has total byte size
`S = 2^63`, which `malloc` does not serve; offset `2^63 - 5` and requested
length 10 satisfy `0 ≤ offset ≤ S` and `offset + length > S`, yet the call
copies 5 bytes out of the null pointer and returns nothing. -/
theorem C2_counterexample :
    (lib2G.file "/big" = some (Object.dataset data2G) ∧
     data2G.num_elems * data2G.type_size = 2 ^ 31 ∧
     (0 : Int) + ((2 ^ 31 + 1 : Nat) : Int) > ((2 ^ 31 : Nat) : Int) ∧
     (hdf5_fuse_read lib2G "/big" (2 ^ 31 + 1) 0).map (fun r => r.1.ret) = some (-2 ^ 31) ∧
     (hdf5_fuse_read lib2G "/big" (2 ^ 31 + 1) 0).map (fun r => r.1.ret) ≠
       some (((2 ^ 31 : Nat) : Int) - 0)) ∧
    (libHalf.file "/half" = some (Object.dataset dataHalf) ∧
     dataHalf.num_elems * dataHalf.type_size = 2 ^ 63 ∧
     libHalf.alloc.limit < 2 ^ 63 ∧
     ((2 ^ 63 - 5 : Int) ≤ ((2 ^ 63 : Nat) : Int)) ∧
     ((2 ^ 63 - 5 : Int) + ((10 : Nat) : Int) > ((2 ^ 63 : Nat) : Int)) ∧
     copy_size (2 ^ 63) 10 (2 ^ 63 - 5) = 5 ∧
     (hdf5_fuse_read libHalf "/half" 10 (2 ^ 63 - 5)).isNone = true) :=
  ⟨⟨rfl, by decide, by decide, by decide, by decide⟩,
   ⟨rfl, by decide, by decide, by decide, by decide, by decide, by decide⟩⟩

/-- C2 (amended): for every dataset of total byte size `S` that `malloc`
serves as one block (`S` is at most the limit of the allocator), every offset
with `0 ≤ offset ≤ S` and every requested length with
`offset + length > S`, provided `S - offset ≤ 2^31 - 1`, `hdf5_fuse_read`
returns exactly `S - offset`, and the bytes stored in the caller's buffer are
the content from `offset` to its end: truncated, not padded, no error. -/
theorem C2_read_truncated (s : Lib) (path : String) (d : Dataset) (size : Nat) (offset : Int)
    (h : s.file path = some (Object.dataset d))
    (hmem : d.num_elems * d.type_size ≤ s.alloc.limit)
    (h0 : 0 ≤ offset)
    (hle : offset ≤ ((d.num_elems * d.type_size : Nat) : Int))
    (hgt : offset + (size : Int) > ((d.num_elems * d.type_size : Nat) : Int))
    (hint : ((d.num_elems * d.type_size : Nat) : Int) - offset ≤ 2 ^ 31 - 1) :
    ∃ r, hdf5_fuse_read s path size offset = some r ∧
      r.1.ret = ((d.num_elems * d.type_size : Nat) : Int) - offset ∧
      r.1.buf = (d.content.drop offset.toNat).map some := by
  have hhi := s.alloc.hi
  have hmod : (d.num_elems * d.type_size) % 2 ^ 64 = d.num_elems * d.type_size :=
    Nat.mod_eq_of_lt (by omega)
  refine ⟨_, read_dataset s path d size offset h (by rw [hmod]; exact hmem), ?_⟩
  dsimp only
  rw [hmod]
  generalize hSdef : d.num_elems * d.type_size = S at *
  have hk : to_size_t ((S : Int) - offset) = S - offset.toNat := by
    rw [to_size_t_of_range _ (by omega) (by omega)]
    omega
  have hc : copy_size S size offset = S - offset.toNat := by
    unfold copy_size
    rw [hk, if_pos (by omega)]
  rw [hc]
  constructor
  · rw [to_int_small _ (by omega)]
    omega
  · rw [memcpy_in_bounds S d.data offset (S - offset.toNat) h0 (by omega)]
    have hslice := range_map_slice d.data S offset.toNat (S - offset.toNat) (by omega)
    have hlen : (((List.range S).map d.data).drop offset.toNat).length ≤ S - offset.toNat := by
      simp
    rw [List.take_of_length_le hlen] at hslice
    simp only [Dataset.content, hSdef, hslice, List.map_map]
    rfl

/-- C2 at `S = 40`, `offset = 35`, `length = 10`: 5 bytes. -/
theorem C2_witness :
    ∃ r, hdf5_fuse_read sampleLib "/data" 10 35 = some r ∧
      r.1.ret = 5 ∧
      r.1.buf = [some 35, some 36, some 37, some 38, some 39] :=
  C2_read_truncated sampleLib "/data" data10x4 10 35 rfl (by decide) (by decide) (by decide)
    (by decide) (by decide)

/-- C3, as stated, fails.  On the 2 GiB dataset `/big` (content of length
`S = 2^31`), offset 0 and length `2^31` satisfy `offset + length ≤ S`, yet the
`int` returned is `-2^31`, not the length.  On `/half` (content of length
`S = 2^63`, which `malloc` does not serve), offset 0 and length 10 satisfy
`offset + length ≤ S`, yet the call copies 10 bytes out of the null pointer
and returns nothing.  On `/wide`, declared with `2^62` elements of 4 bytes
(content of length `S = 2^64`), the size computed in `size_t` is 0 and a read
of 1 byte at offset 0 returns 0 and copies nothing. -/
theorem C3_counterexample :
    (lib2G.file "/big" = some (Object.dataset data2G) ∧
     data2G.content.length = 2 ^ 31 ∧
     (hdf5_fuse_read lib2G "/big" (2 ^ 31) 0).map (fun r => r.1.ret) = some (-2 ^ 31) ∧
     (hdf5_fuse_read lib2G "/big" (2 ^ 31) 0).map (fun r => r.1.ret) ≠
       some ((2 ^ 31 : Nat) : Int)) ∧
    (libHalf.file "/half" = some (Object.dataset dataHalf) ∧
     dataHalf.content.length = 2 ^ 63 ∧
     libHalf.alloc.limit < 2 ^ 63 ∧
     copy_size (2 ^ 63) 10 0 = 10 ∧
     (hdf5_fuse_read libHalf "/half" 10 0).isNone = true) ∧
    (libWide.file "/wide" = some (Object.dataset dataWide) ∧
     dataWide.content.length = 2 ^ 64 ∧
     (hdf5_fuse_filesize libWide "/wide").1 = 0 ∧
     (hdf5_fuse_read libWide "/wide" 1 0).map (fun r => r.1) = some { ret := 0, buf := [] }) :=
  ⟨⟨rfl, by rw [content_length]; decide, by decide, by decide⟩,
   ⟨rfl, by rw [content_length]; decide, by decide, by decide, by decide⟩,
   ⟨rfl, by rw [content_length]; decide, by decide, by decide⟩⟩

/-- C3 (amended): for every dataset whose decoded content is the byte sequence
`C` of length `S`, where `malloc` serves a block of `S` bytes (`S` is at most
the limit of the allocator, hence below `2^63`), and every offset and length
with `0 ≤ offset` and `offset + length ≤ S`, `hdf5_fuse_read` returns, leaves
the first `length` bytes of the caller's buffer equal to
`C[offset .. offset+length)`, and returns `length` whenever
`length ≤ 2^31 - 1`. -/
theorem C3_read_within (s : Lib) (path : String) (d : Dataset) (size : Nat) (offset : Int)
    (h : s.file path = some (Object.dataset d))
    (hmem : d.content.length ≤ s.alloc.limit)
    (h0 : 0 ≤ offset)
    (hle : offset + (size : Int) ≤ (d.content.length : Int)) :
    ∃ r, hdf5_fuse_read s path size offset = some r ∧
      (size ≤ 2 ^ 31 - 1 → r.1.ret = (size : Int)) ∧
      r.1.buf = ((d.content.drop offset.toNat).take size).map some := by
  have hhi := s.alloc.hi
  rw [content_length] at hmem hle
  have hmod : (d.num_elems * d.type_size) % 2 ^ 64 = d.num_elems * d.type_size :=
    Nat.mod_eq_of_lt (by omega)
  refine ⟨_, read_dataset s path d size offset h (by rw [hmod]; exact hmem), ?_⟩
  dsimp only
  rw [hmod]
  unfold Dataset.content
  generalize d.num_elems * d.type_size = S at *
  have hk : to_size_t ((S : Int) - offset) = S - offset.toNat := by
    rw [to_size_t_of_range _ (by omega) (by omega)]
    omega
  have hc : copy_size S size offset = size := by
    unfold copy_size
    rw [hk, if_neg (by omega)]
  rw [hc]
  constructor
  · intro hint
    exact to_int_small _ (by omega)
  · rw [memcpy_in_bounds S d.data offset size h0 hle,
      range_map_slice d.data S offset.toNat size (by omega), List.map_map]
    rfl

/-- C3 at `S = 40`, `offset = 0`, `length = 40`: all 40 content bytes. -/
theorem C3_witness :
    ∃ r, hdf5_fuse_read sampleLib "/data" 40 0 = some r ∧
      r.1.ret = 40 ∧
      r.1.buf = data10x4.content.map some :=
  (C3_read_within sampleLib "/data" data10x4 40 0 rfl
    (by rw [content_length]; decide) (by decide) (by rw [content_length]; decide)).imp
    (fun _ hr => ⟨hr.1, hr.2.1 (by decide), hr.2.2⟩)

/-- C1 on the 40-byte dataset `/data` of the sample container: a read of 10
bytes at offset 40 returns 0, but the same read at offset 41 returns 10, not
0: `buf_size - offset` wraps in `size_t`, `copy_size` is the requested
length, and the 10 bytes are fetched from beyond the transient buffer. -/
theorem C1_read_beyond_end :
    (hdf5_fuse_filesize sampleLib "/data").1 = 40 ∧
    (hdf5_fuse_read sampleLib "/data" 10 40).map (fun r => r.1.ret) = some 0 ∧
    copy_size 40 10 41 = 10 ∧
    (hdf5_fuse_read sampleLib "/data" 10 41).map (fun r => r.1.ret) = some 10 ∧
    (hdf5_fuse_read sampleLib "/data" 10 41).map (fun r => r.1.buf) =
      some (List.replicate 10 none) := by
  decide

/-- C9 on the sample container: `/nope` is absent and `/g` is a group, so
`H5Dopen` fails on both; `hdf5_fuse_read` at offset 0 nevertheless returns 0
with nothing copied, not `-ENOENT`, while `hdf5_fuse_getattr` and
`hdf5_fuse_open` return `-ENOENT` for the absent path. -/
theorem C9_read_without_dataset :
    (H5Dopen sampleLib "/nope").1 = -1 ∧
    (hdf5_fuse_read sampleLib "/nope" 10 0).map (fun r => r.1) = some { ret := 0, buf := [] } ∧
    (hdf5_fuse_read sampleLib "/nope" 10 0).map (fun r => r.1.ret) ≠ some (-ENOENT) ∧
    (H5Dopen sampleLib "/g").1 = -1 ∧
    (hdf5_fuse_read sampleLib "/g" 10 0).map (fun r => r.1) = some { ret := 0, buf := [] } ∧
    (hdf5_fuse_getattr sampleLib "/nope").1 = -ENOENT ∧
    hdf5_fuse_open sampleLib "/nope" O_RDONLY = -ENOENT := by
  decide

/-! ## Identifiers and blocks left behind -/

/-- C10 on the sample container, started with no open identifier and no live
block: after `hdf5_fuse_getattr` on `/data` one datatype identifier is still
open; after `hdf5_fuse_read` on `/data` two datatype identifiers are still
open.  The dataset and dataspace identifiers are closed and the transient
buffer is freed. -/
theorem C10_datatype_identifiers_left_open :
    sampleLib.handles = [] ∧ sampleLib.heap = [] ∧
    (hdf5_fuse_getattr sampleLib "/data").2.2.handles = [(1, Handle.datatype 4)] ∧
    (hdf5_fuse_getattr sampleLib "/data").2.2.heap = [] ∧
    (hdf5_fuse_read sampleLib "/data" 40 0).map (fun r => r.2.handles) =
      some [(3, Handle.datatype 4), (1, Handle.datatype 4)] ∧
    (hdf5_fuse_read sampleLib "/data" 40 0).map (fun r => r.2.heap) = some [] := by
  decide

/-! ## Open -/

/-- C5: for every path, whether or not it resolves, and every flags value
whose access mode `flags & 3` is not `O_RDONLY`, `hdf5_fuse_open` returns
`-EACCES`, which is neither `-ENOENT` nor success. -/
theorem C5_open_not_read_only (s : Lib) (path : String) (flags : Int)
    (h : Int.land flags 3 ≠ O_RDONLY) :
    hdf5_fuse_open s path flags = -EACCES ∧
    hdf5_fuse_open s path flags ≠ -ENOENT ∧
    hdf5_fuse_open s path flags ≠ 0 := by
  have e : hdf5_fuse_open s path flags = -EACCES := by
    unfold hdf5_fuse_open
    rw [if_pos h]
  rw [e]
  exact ⟨rfl, by decide, by decide⟩

/-- C5 on the absent path `/nope` opened write-only, and on the dataset
`/data` opened read-write with `O_APPEND` (0o2000). -/
theorem C5_witness :
    sampleLib.file "/nope" = none ∧
    hdf5_fuse_open sampleLib "/nope" O_WRONLY = -EACCES ∧
    hdf5_fuse_open sampleLib "/data" (Int.lor O_RDWR 0o2000) = -EACCES :=
  ⟨rfl, (C5_open_not_read_only sampleLib "/nope" O_WRONLY (by decide)).1,
    (C5_open_not_read_only sampleLib "/data" (Int.lor O_RDWR 0o2000) (by decide)).1⟩

/-! ## Attributes and listing -/

/-- C7: for every path that resolves to a group with `n` children,
`hdf5_fuse_getattr` returns 0 with mode `S_IFDIR | 0555` (a directory,
read and execute for owner, group and other, no write), link count `2 + n`
and size `n`, and opens no identifier. -/
theorem C7_getattr_group (s : Lib) (path : String) (g : Group)
    (h : s.file path = some (Object.group g)) :
    hdf5_fuse_getattr s path =
      (0, { st_mode := S_IFDIR ||| 0o555, st_nlink := 2 + g.names.length,
            st_size := (g.names.length : Int) }, s) ∧
    (S_IFDIR ||| 0o555) &&& S_IFMT = S_IFDIR ∧
    (S_IFDIR ||| 0o555) &&& 0o7777 = 0o555 :=
  ⟨getattr_group s path g h, by decide, by decide⟩

/-- C7 on the group `/g` with 3 children: link count 5 and size 3. -/
theorem C7_witness :
    hdf5_fuse_getattr sampleLib "/g" =
      (0, { st_mode := 0o040555, st_nlink := 5, st_size := 3 }, sampleLib) :=
  (C7_getattr_group sampleLib "/g" groupG rfl).1

/-- C8, as stated, fails: `/wide` has `2^62` elements of 4 bytes, the product
is `2^64`, and `hdf5_fuse_getattr` reports size 0. -/
theorem C8_counterexample :
    libWide.file "/wide" = some (Object.dataset dataWide) ∧
    dataWide.num_elems * dataWide.type_size = 2 ^ 64 ∧
    (hdf5_fuse_getattr libWide "/wide").2.1.st_size = 0 ∧
    (hdf5_fuse_getattr libWide "/wide").2.1.st_size ≠
      ((dataWide.num_elems * dataWide.type_size : Nat) : Int) :=
  ⟨rfl, by decide, by decide, by decide⟩

/-- C8 (amended): for every path that resolves to a dataset with element count
`c` and element type size `t` such that `c * t < 2^63`, `hdf5_fuse_getattr`
returns 0 with mode `S_IFREG | 0444` (a regular file, read-only) and a
size equal to the exact product `c * t`. -/
theorem C8_getattr_dataset (s : Lib) (path : String) (d : Dataset)
    (h : s.file path = some (Object.dataset d))
    (hfit : d.num_elems * d.type_size < 2 ^ 63) :
    (hdf5_fuse_getattr s path).1 = 0 ∧
    (hdf5_fuse_getattr s path).2.1 =
      { st_mode := S_IFREG ||| 0o444, st_nlink := 0,
        st_size := ((d.num_elems * d.type_size : Nat) : Int) } ∧
    (S_IFREG ||| 0o444) &&& S_IFMT = S_IFREG ∧
    (S_IFREG ||| 0o444) &&& 0o7777 = 0o444 := by
  rw [getattr_dataset s path d h]
  have hmod : (d.num_elems * d.type_size) % 2 ^ 64 = d.num_elems * d.type_size :=
    Nat.mod_eq_of_lt (by omega)
  rw [hmod, to_off_t_small _ hfit]
  exact ⟨rfl, rfl, by decide, by decide⟩

/-- C8 on `/data`, 10 elements of 4 bytes: a regular file of size 40. -/
theorem C8_witness :
    (hdf5_fuse_getattr sampleLib "/data").1 = 0 ∧
    (hdf5_fuse_getattr sampleLib "/data").2.1 =
      { st_mode := 0o100444, st_nlink := 0, st_size := 40 } :=
  ⟨(C8_getattr_dataset sampleLib "/data" data10x4 rfl (by decide)).1,
   (C8_getattr_dataset sampleLib "/data" data10x4 rfl (by decide)).2.1⟩

set_option maxRecDepth 8000 in
/-- C6 on a root group whose only child, a dataset, has a name of 200
characters: the entry emitted for it is its first 127 characters, not the
name, and the emitted name does not resolve (`hdf5_fuse_getattr` returns
`-ENOENT` for it, and 0 for the name itself). -/
theorem C6_long_name_cut :
    libLong.file "/" = some (Object.group groupLong) ∧
    groupLong.names = [longName] ∧
    longName.length = 200 ∧
    hdf5_fuse_readdir libLong "/" = (0, [".", "..", String.mk (List.replicate 127 'a')]) ∧
    hdf5_fuse_readdir libLong "/" ≠ (0, [".", "..", longName]) ∧
    (hdf5_fuse_getattr libLong ("/" ++ String.mk (List.replicate 127 'a'))).1 = -ENOENT ∧
    (hdf5_fuse_getattr libLong ("/" ++ longName)).1 = 0 :=
  ⟨rfl, rfl, by decide, by decide, by decide, by decide, by decide⟩

/-- For every path that resolves to a group with `n` children,
`hdf5_fuse_readdir` returns 0 and emits exactly `"."`, `".."`, then for
`i = 0, 1, ..., n-1` in that order the first 127 characters of the name of the
child at index `i`, which is the whole name when it has at most 127
characters; the number of entries after `"."` and `".."` equals the size
that `hdf5_fuse_getattr` reports for the same group. -/
theorem readdir_entries (s : Lib) (path : String) (g : Group)
    (h : s.file path = some (Object.group g)) :
    hdf5_fuse_readdir s path =
      (0, "." :: ".." :: g.names.map (fun name => String.mk (name.data.take 127))) ∧
    ((∀ name ∈ g.names, name.length ≤ 127) →
      hdf5_fuse_readdir s path = (0, "." :: ".." :: g.names)) ∧
    (((hdf5_fuse_readdir s path).2.drop 2).length : Int) =
      (hdf5_fuse_getattr s path).2.1.st_size := by
  rw [readdir_group s path g h, getattr_group s path g h]
  refine ⟨rfl, ?_, by simp⟩
  intro hshort
  have hmap : g.names.map (fun name => String.mk (name.data.take 127)) = g.names := by
    conv_rhs => rw [← List.map_id g.names]
    apply List.map_congr_left
    intro name hname
    have hl : name.data.length ≤ 127 := hshort name hname
    simp only [List.take_of_length_le hl, id]
  rw [hmap]

/-- The listing of the group `/g` with children `a`, `b`, `c`. -/
theorem readdir_entries_sample :
    hdf5_fuse_readdir sampleLib "/g" = (0, [".", "..", "a", "b", "c"]) ∧
    (((hdf5_fuse_readdir sampleLib "/g").2.drop 2).length : Int) =
      (hdf5_fuse_getattr sampleLib "/g").2.1.st_size :=
  ⟨(readdir_entries sampleLib "/g" groupG rfl).2.1 (by decide),
   (readdir_entries sampleLib "/g" groupG rfl).2.2⟩

end Hdf5Fuse
